import Mathlib

/-!
Shallow embedding of the `mylastbot` repository (src/bot.py,
src/modules/auth.py, src/modules/utils.py) and proofs about its
credential store, session gating, conversation flows and section
repository.

Conventions of the embedding:
* Machine state that Python keeps in module-level globals
  (`active_sessions`, `user_sections`) is threaded explicitly through a
  `BotState` record.
* The credential file `users.json` and its sibling paths
  `users.tmp` / `users.corrupt.bak` are modelled by an `Fs` record with
  one slot per path.  File writes are decomposed into micro-operations
  (`FsOp`) so that crash points inside a write sequence can be examined:
  `open(path, "w")` truncates the file (leaving content that no longer
  parses as JSON), `json.dump` completes the document, and
  `os.replace` / `os.rename` moves atomically.
* `bcrypt` is idealized: `gensalt` is a fresh salt supplied as an
  explicit argument, and `hashpw` is modelled as the pair of the salt
  and the password, so that `checkpw p (hashpw q s)` holds exactly when
  `p = q` (collision resistance of bcrypt).  `datetime.utcnow` is an
  explicit `now : String` argument.
* Functions that can raise an uncaught Python exception return `Except`.
-/

namespace MyLastBot

/-- The three file paths the credential store touches:
`users.json`, `users.json.with_suffix(".tmp")` and
`users.json.with_suffix(".corrupt.bak")`. -/
inductive FPath
  | usersJson
  | usersTmp
  | usersCorruptBak
deriving DecidableEq, Repr

/-- Idealized bcrypt hash: the salt together with the password it was
computed from.  `checkpw` recomputes the hash with the stored salt and
compares, which under collision resistance succeeds exactly on the
original password. -/
structure BcryptHash where
  salt : Nat
  pwd : String
deriving DecidableEq, Repr

/-- `bcrypt.hashpw(password, gensalt())` with the fresh salt made an
explicit argument. -/
def hashpw (password : String) (salt : Nat) : BcryptHash := ⟨salt, password⟩

/-- `bcrypt.checkpw(password, hashed)`. -/
def checkpw (password : String) (hashed : BcryptHash) : Bool :=
  hashed.pwd == password

/-- `modules/auth.py hash_password`. -/
def hash_password (password : String) (salt : Nat) : BcryptHash :=
  hashpw password salt

/-- `modules/auth.py verify_password`. -/
def verify_password (password : String) (hashed : BcryptHash) : Bool :=
  checkpw password hashed

/-- One credential record as persisted in `users.json`.  Both register
paths store `password` and `created_at`; only `modules/auth.py`
`register_user` additionally stores `settings` (an empty mapping), so
the presence of that field is tracked with an `Option`. -/
structure UserRec where
  password : BcryptHash
  created_at : String
  settings : Option (List (String × String))
deriving DecidableEq, Repr

/-- The field names present in the persisted JSON object for a record,
in the order the Python dict literals write them. -/
def UserRec.fields (r : UserRec) : List String :=
  ["password", "created_at"] ++ (if r.settings.isSome then ["settings"] else [])

/-- The credential map: the JSON document of `users.json`, in insertion
order (Python dicts preserve insertion order). -/
abbrev Users := List (String × UserRec)

/-- `users.get(username)` / `username in users` on the credential map. -/
def getUser (users : Users) (u : String) : Option UserRec :=
  match users with
  | [] => none
  | (k, r) :: rest => if k = u then some r else getUser rest u

/-- `users[username] = record`: replace the existing binding in place,
or append a new one (Python dict assignment). -/
def upsert (users : Users) (u : String) (r : UserRec) : Users :=
  match users with
  | [] => [(u, r)]
  | (k, r0) :: rest => if k = u then (u, r) :: rest else (k, r0) :: upsert rest u r

/-- What a file on disk can hold: bytes on which `json.load` fails
(a truncated/partial or otherwise corrupted file), or a complete JSON
document of the credential map. -/
inductive FileContent
  | corruptData
  | jsonDoc (users : Users)
deriving DecidableEq, Repr

/-- The slice of the file system the credential store touches; `none`
means the path does not exist. -/
structure Fs where
  usersJson : Option FileContent
  usersTmp : Option FileContent
  usersCorruptBak : Option FileContent
deriving DecidableEq, Repr

def Fs.getPath (fs : Fs) : FPath → Option FileContent
  | .usersJson => fs.usersJson
  | .usersTmp => fs.usersTmp
  | .usersCorruptBak => fs.usersCorruptBak

def Fs.setPath (fs : Fs) : FPath → Option FileContent → Fs
  | .usersJson, c => { fs with usersJson := c }
  | .usersTmp, c => { fs with usersTmp := c }
  | .usersCorruptBak, c => { fs with usersCorruptBak := c }

/-- Micro-operations of a file write sequence.  `beginWrite` is
`open(p, "w")`: it truncates the file, leaving content that does not
parse as JSON; `endWrite` is `json.dump` running to completion;
`replaceOp` is `os.replace(src, dst)` / `os.rename(src, dst)`, an
atomic move. -/
inductive FsOp
  | beginWrite (p : FPath)
  | endWrite (p : FPath) (users : Users)
  | replaceOp (src dst : FPath)
deriving DecidableEq, Repr

def applyOp (fs : Fs) : FsOp → Fs
  | .beginWrite p => fs.setPath p (some .corruptData)
  | .endWrite p users => fs.setPath p (some (.jsonDoc users))
  | .replaceOp src dst => (fs.setPath dst (fs.getPath src)).setPath src none

def applyOps (fs : Fs) (ops : List FsOp) : Fs := ops.foldl applyOp fs

/-- The write sequence of `atomic_write_json` (modules/utils.py lines
5-9 and its duplicate bot.py lines 63-67): dump to `users.tmp`, then
`os.replace` it over `users.json`. -/
def atomic_write_json_ops (users : Users) : List FsOp :=
  [.beginWrite .usersTmp, .endWrite .usersTmp users,
   .replaceOp .usersTmp .usersJson]

/-- The write sequence of `modules/auth.py save_users` (lines 21-23):
it opens `users.json` itself with mode "w" and dumps into it directly —
no temp file, no rename. -/
def save_users_ops (users : Users) : List FsOp :=
  [.beginWrite .usersJson, .endWrite .usersJson users]

/-- Net effect of `atomic_write_json(USERS_FILE, users)`. -/
def atomic_write_json (users : Users) (fs : Fs) : Fs :=
  applyOps fs (atomic_write_json_ops users)

/-- Net effect of `modules/auth.py save_users(users)`. -/
def save_users (users : Users) (fs : Fs) : Fs :=
  applyOps fs (save_users_ops users)

/-- `modules/auth.py load_users`: `json.load` the file, and on any
exception return the empty dict.  No rename, no other side effect. -/
def load_users (fs : Fs) : Users × Fs :=
  match fs.usersJson with
  | some (.jsonDoc users) => (users, fs)
  | _ => ([], fs)

/-- `modules/utils.py atomic_read_json` (lines 11-18): `json.load` the
file; on exception, rename it to the `.corrupt.bak` path and return the
empty dict.  When the file does not exist at all, the `open` in the
`try` raises, and then `os.rename` on the missing path raises an
uncaught `FileNotFoundError`: modelled as `Except.error`. -/
def atomic_read_json (fs : Fs) : Except Unit (Users × Fs) :=
  match fs.usersJson with
  | some (.jsonDoc users) => .ok (users, fs)
  | some .corruptData =>
      .ok ([], { fs with usersJson := none, usersCorruptBak := some .corruptData })
  | none => .error ()

/-- `bot.py atomic_read_json` (lines 53-61): identical to the utils
version except that it returns `None` on failure (callers coerce with
`or {}`). -/
def bot_atomic_read_json (fs : Fs) : Except Unit (Option Users × Fs) :=
  match fs.usersJson with
  | some (.jsonDoc users) => .ok (some users, fs)
  | some .corruptData =>
      .ok (none, { fs with usersJson := none, usersCorruptBak := some .corruptData })
  | none => .error ()

/-- The record stored by `modules/auth.py register_user` (lines 29-34):
password hash, creation timestamp and an empty `settings` mapping. -/
def auth_register_record (password : String) (salt : Nat) (now : String) : UserRec :=
  { password := hash_password password salt, created_at := now, settings := some [] }

/-- The record stored by `bot.py register_password` (line 131):
password hash and creation timestamp only — no `settings` field. -/
def bot_register_record (password : String) (salt : Nat) (now : String) : UserRec :=
  { password := hashpw password salt, created_at := now, settings := none }

/-- `modules/auth.py register_user` (lines 25-36). -/
def register_user (username password : String) (salt : Nat) (now : String)
    (fs : Fs) : Bool × Fs :=
  let (users, fs1) := load_users fs
  if (getUser users username).isSome then (false, fs1)
  else
    let users2 := upsert users username (auth_register_record password salt now)
    (true, save_users users2 fs1)

/-- `modules/auth.py authenticate_user` (lines 38-44). -/
def authenticate_user (username password : String) (fs : Fs) : Bool × Fs :=
  let (users, fs1) := load_users fs
  match getUser users username with
  | none => (false, fs1)
  | some user => (verify_password password user.password, fs1)

/-- Python `str.strip()`: remove whitespace from both ends of the
string.  Defined by structural recursion over the character list so
that it evaluates inside the kernel. -/
def pyStrip (s : String) : String :=
  ⟨(((s.data.dropWhile Char.isWhitespace).reverse.dropWhile Char.isWhitespace).reverse)⟩

/-! ### bot.py: conversation state constants and global state -/

/-- `LOGIN_USERNAME, LOGIN_PASSWORD = range(2)` (bot.py line 47). -/
def LOGIN_USERNAME : Int := 0

def LOGIN_PASSWORD : Int := 1

/-- `REG_USERNAME, REG_PASSWORD = range(2, 4)` (bot.py line 48). -/
def REG_USERNAME : Int := 2

def REG_PASSWORD : Int := 3

/-- `ADD_TITLE, ADD_CONTENT = range(100, 102)` (bot.py line 49). -/
def ADD_TITLE : Int := 100

def ADD_CONTENT : Int := 101

/-- `ConversationHandler.END`: returned by a handler to terminate the
conversation, so no conversation state remains. -/
def END : Int := -1

/-- One section as stored in `user_sections` (bot.py lines 254-259):
the dict literal has keys `id`, `title`, `text`, `created_at`. -/
structure SectionRec where
  id : Nat
  title : String
  text : String
  created_at : String
deriving DecidableEq, Repr

/-- The module-level globals of bot.py: `active_sessions` (a set of
Telegram user ids, modelled as a duplicate-free list) and
`user_sections` (a dict from user id to list of sections, modelled as a
total function defaulting to `[]`; `setdefault(uid, [])` followed by
reads that also default to `[]` makes key presence unobservable). -/
structure BotState where
  active_sessions : List Nat
  user_sections : Nat → List SectionRec

/-- `active_sessions.add(user_id)` (Python set add). -/
def addSession (userId : Nat) (sessions : List Nat) : List Nat :=
  if userId ∈ sessions then sessions else sessions ++ [userId]

/-- `user_sections.get(user_id, [])` / `user_sections.setdefault(user_id, [])`. -/
def getSections (st : BotState) (userId : Nat) : List SectionRec :=
  st.user_sections userId

/-- Store a user's section list (dict assignment / in-place mutation of
the list obtained from `setdefault`). -/
def setSections (st : BotState) (userId : Nat) (secs : List SectionRec) : BotState :=
  { st with user_sections := fun u => if u = userId then secs else st.user_sections u }

/-- The check performed by the `requires_login` decorator (bot.py lines
70-76): the wrapped handler runs only when the effective user id is in
`active_sessions`; otherwise the wrapper replies with a warning and
returns `None` without calling the handler. -/
def requires_login_check (userId : Nat) (st : BotState) : Bool :=
  userId ∈ st.active_sessions

/-! ### bot.py: registration and login handlers -/

/-- `bot.py register_start` (lines 112-114). -/
def register_start : Int := REG_USERNAME

/-- `bot.py register_username` (lines 116-124): reads the credential
file, re-prompts (stays at `REG_USERNAME`) when the username already
exists, otherwise remembers the username in `user_data` and advances to
`REG_PASSWORD`.  The result carries the new
`user_data["register_username"]` scratch value (`none` = unchanged). -/
def register_username (text : String) (fs : Fs) :
    Except Unit (Option String × Int × Fs) := do
  let username := (pyStrip text)
  let (usersOpt, fs1) ← bot_atomic_read_json fs
  let users := usersOpt.getD []
  if (getUser users username).isSome then
    .ok (none, REG_USERNAME, fs1)
  else
    .ok (some username, REG_PASSWORD, fs1)

/-- `bot.py register_password` (lines 126-134): hashes the password,
stores `(password, created_at)` for the pending username and persists
the whole map through `atomic_write_json`; the conversation ends. -/
def register_password (username text : String) (salt : Nat) (now : String)
    (fs : Fs) : Except Unit (Int × Fs) := do
  let password := (pyStrip text)
  let (usersOpt, fs1) ← bot_atomic_read_json fs
  let users := usersOpt.getD []
  let users2 := upsert users username (bot_register_record password salt now)
  .ok (END, atomic_write_json users2 fs1)

/-- `bot.py register_cancel` (lines 136-138): explicit cancel, ends the
conversation. -/
def register_cancel : Int := END

/-- `bot.py login_start` (lines 141-147): when the user is already in
`active_sessions` the handler replies, shows the menu and returns
`ConversationHandler.END` immediately — no username or password step is
entered and nothing is mutated; otherwise it prompts and moves to
`LOGIN_USERNAME`.  The file system is passed through to record that the
handler performs no file operation. -/
def login_start (userId : Nat) (st : BotState) (fs : Fs) : Int × BotState × Fs :=
  if userId ∈ st.active_sessions then (END, st, fs)
  else (LOGIN_USERNAME, st, fs)

/-- `bot.py login_username` (lines 149-152): stores the trimmed text as
the pending login username and advances to `LOGIN_PASSWORD`. -/
def login_username (text : String) : String × Int :=
  ((pyStrip text), LOGIN_PASSWORD)

/-- The outcome of `bot.py login_password` (lines 154-169), which is
the only place the code distinguishes an unknown user
("User not found") from a wrong password ("Incorrect password"). -/
inductive LoginResult
  | notFound
  | badCredential
  | success
deriving DecidableEq, Repr

/-- `bot.py login_password`: reads the credential file through the
bot's `atomic_read_json` (coerced with `or {}`), answers "User not
found" when the username is absent, otherwise checks the password with
`bcrypt.checkpw`; on success adds the user id to `active_sessions`.
Every branch falls through to `return ConversationHandler.END`
(bot.py line 169), carried as the `Int` component of the result. -/
def login_password (username password : String) (userId : Nat)
    (sessions : List Nat) (fs : Fs) :
    Except Unit (LoginResult × Int × List Nat × Fs) := do
  let (usersOpt, fs1) ← bot_atomic_read_json fs
  let users := usersOpt.getD []
  match getUser users username with
  | none => .ok (.notFound, END, sessions, fs1)
  | some user =>
      if checkpw password user.password then
        .ok (.success, END, addSession userId sessions, fs1)
      else
        .ok (.badCredential, END, sessions, fs1)

/-! ### bot.py: section handlers -/

/-- An incoming message in the `ADD_CONTENT` state: plain text or an
uploaded document (bot.py lines 246-250). -/
inductive MsgInput
  | text (s : String)
  | document (file_name file_id : String)
deriving DecidableEq, Repr

/-- The `add_section` branch of `bot.py menu_callback` (lines 205-214),
the entry point of the addSection conversation.  `menu_callback` is
wrapped in `requires_login`: with no active session the wrapper returns
without running the handler (`none`) and the state is untouched;
otherwise the branch prompts for a title and returns `ADD_TITLE`. -/
def menu_callback_add (userId : Nat) (st : BotState) : Option Int × BotState :=
  if requires_login_check userId st then (some ADD_TITLE, st)
  else (none, st)

/-- `bot.py add_section_title` (lines 236-240), wrapped in
`requires_login`.  With an active session it stores the trimmed text as
`user_data["section_title"]` — with no validation of any kind — and
advances to `ADD_CONTENT`; with no session the wrapper returns `none`
and nothing changes.  The `Option` result carries the scratch title and
the returned conversation state. -/
def add_section_title (userId : Nat) (text : String) (st : BotState) :
    Option (String × Int) × BotState :=
  if requires_login_check userId st then (some ((pyStrip text), ADD_CONTENT), st)
  else (none, st)

/-- The content string built by `add_section_content` (bot.py lines
246-250): a markdown link for an uploaded document, else the trimmed
message text. -/
def msgContent : MsgInput → String
  | .document name fid => "[PDF: " ++ name ++ "](https://t.me/file/" ++ fid ++ ")"
  | .text s => (pyStrip s)

/-- `bot.py add_section_content` (lines 242-262), the commit of the
addSection flow.  It is NOT wrapped in `requires_login`: it reads the
pending title from `user_data`, builds the content (a markdown link for
a document, else the trimmed text), appends a section with
`id = len(sections) + 1` to the user's list and ends the
conversation — regardless of `active_sessions`. -/
def add_section_content (userId : Nat) (title : String) (input : MsgInput)
    (now : String) (st : BotState) : BotState × Int :=
  let content := msgContent input
  let sections := getSections st userId
  let new_id := sections.length + 1
  let sec : SectionRec := { id := new_id, title := title, text := content, created_at := now }
  (setSections st userId (sections ++ [sec]), END)

/-- `bot.py show_sections` (lines 266-284), wrapped in
`requires_login`: with an active session it renders the user's section
list (modelled as returning that list); with no session the wrapper
returns `none` and nothing changes. -/
def show_sections (userId : Nat) (st : BotState) :
    Option (List SectionRec) × BotState :=
  if requires_login_check userId st then (some (getSections st userId), st)
  else (none, st)

/-- The `section_ID` branch of `bot.py section_callback` (lines
287-314), wrapped in `requires_login`: with an active session it looks
up the section with the given id in the user's list
(`next((s for s in sections if s["id"] == sec_id), None)`) and renders
it — a read-only operation, modelled as returning the lookup result;
with no active session the wrapper returns `none` and nothing
changes. -/
def section_callback (userId : Nat) (secId : Nat) (st : BotState) :
    Option (Option SectionRec) × BotState :=
  if requires_login_check userId st then
    (some ((getSections st userId).find? (fun s => s.id == secId)), st)
  else (none, st)

/-! ### Helper lemmas -/

lemma getUser_upsert_self (users : Users) (u : String) (r : UserRec) :
    getUser (upsert users u r) u = some r := by
  induction users with
  | nil => simp [upsert, getUser]
  | cons hd tl ih =>
      obtain ⟨k, r0⟩ := hd
      by_cases hk : k = u
      · subst hk; simp [upsert, getUser]
      · simp [upsert, getUser, hk, ih]

lemma save_users_eq (users : Users) (fs : Fs) :
    save_users users fs = { fs with usersJson := some (.jsonDoc users) } := rfl

lemma atomic_write_json_eq (users : Users) (fs : Fs) :
    atomic_write_json users fs =
      { fs with usersJson := some (.jsonDoc users), usersTmp := none } := rfl

lemma getSections_set_self (st : BotState) (uid : Nat) (secs : List SectionRec) :
    getSections (setSections st uid secs) uid = secs := by
  simp [getSections, setSections]

lemma getSections_set_other (st : BotState) (uid b : Nat) (secs : List SectionRec)
    (h : b ≠ uid) :
    getSections (setSections st uid secs) b = getSections st b := by
  simp [getSections, setSections, h]

lemma add_section_content_fst (uid : Nat) (title : String) (input : MsgInput)
    (now : String) (st : BotState) :
    (add_section_content uid title input now st).1 =
      setSections st uid (getSections st uid ++
        [⟨(getSections st uid).length + 1, title, msgContent input, now⟩]) := rfl

lemma append_x_ne (p : String) : p ++ "x" ≠ p := by
  intro h
  have hl := congrArg String.length h
  rw [String.length_append] at hl
  have hx : ("x" : String).length = 1 := rfl
  omega

/-! ### Claims -/

/-- C3 counterexample: the commit action of the addSection flow does
NOT re-check the session.  In the concrete state where user 1 has no
active session (the `requires_login` check is false) but holds a
pending title "T" from an earlier step, `add_section_content` still
creates the section instead of failing with Unauthenticated and
producing no state change. -/
theorem c3_commit_without_session_cex :
    requires_login_check 1 ⟨[], fun _ => []⟩ = false ∧
    getSections (add_section_content 1 "T" (MsgInput.text "hello") "t0"
        ⟨[], fun _ => []⟩).1 1 =
      [⟨1, "T", "hello", "t0"⟩] :=
  ⟨rfl, by decide⟩

/-- C3 amended: entering the addSection flow (the `add_section` menu
branch), its title step, and every read of the Section Repository
(`show_sections` and `section_callback`) first re-check the session:
with no active session they fail (the `requires_login` wrapper returns
without running the handler) and produce no state change; with an
active session `addSection` succeeds and the created section is
retrievable via the list and via the section detail read.  The commit
handler `add_section_content`, however, performs no session re-check:
it appends the section unconditionally. -/
theorem c3_login_gating (uid : Nat) (st : BotState) (t : String)
    (input : MsgInput) (now : String) (i : Nat) :
    (uid ∉ st.active_sessions →
      menu_callback_add uid st = (none, st) ∧
      add_section_title uid t st = (none, st) ∧
      show_sections uid st = (none, st) ∧
      section_callback uid i st = (none, st)) ∧
    (uid ∈ st.active_sessions →
      menu_callback_add uid st = (some ADD_TITLE, st) ∧
      add_section_title uid t st = (some ((pyStrip t), ADD_CONTENT), st) ∧
      (show_sections uid (add_section_content uid (pyStrip t) input now st).1).1 =
        some (getSections st uid ++
          [⟨(getSections st uid).length + 1, (pyStrip t), msgContent input, now⟩]) ∧
      (section_callback uid i (add_section_content uid (pyStrip t) input now st).1).1 =
        some ((getSections st uid ++
          [(⟨(getSections st uid).length + 1, (pyStrip t), msgContent input, now⟩ :
            SectionRec)]).find? (fun s => s.id == i))) ∧
    add_section_content uid (pyStrip t) input now st =
      (setSections st uid (getSections st uid ++
        [⟨(getSections st uid).length + 1, (pyStrip t), msgContent input, now⟩]), END) := by
  refine ⟨fun h => ?_, fun h => ?_, rfl⟩
  · simp [menu_callback_add, add_section_title, show_sections,
      section_callback, requires_login_check, h]
  · refine ⟨?_, ?_, ?_, ?_⟩
    · simp [menu_callback_add, requires_login_check, h]
    · simp [add_section_title, requires_login_check, h]
    · have hsess : ∀ secs, (setSections st uid secs).active_sessions =
        st.active_sessions := fun _ => rfl
      simp [show_sections, requires_login_check, hsess, h,
        add_section_content_fst, getSections_set_self]
    · have hsess : ∀ secs, (setSections st uid secs).active_sessions =
        st.active_sessions := fun _ => rfl
      simp [section_callback, requires_login_check, hsess, h,
        add_section_content_fst, getSections_set_self]

/-- Witness for the C3 amended theorem: user 7 with an active session
runs the addSection flow and the created section appears in the
list. -/
theorem c3_login_gating_witness :
    (show_sections 7 (add_section_content 7 ((pyStrip "Notes")) (MsgInput.text "hello") "t0"
        (BotState.mk [7] (fun _ => []))).1).1 =
      some (getSections (BotState.mk [7] (fun _ => [])) 7 ++
        [⟨(getSections (BotState.mk [7] (fun _ => [])) 7).length + 1, (pyStrip "Notes"),
          msgContent (MsgInput.text "hello"), "t0"⟩]) :=
  ((c3_login_gating 7 ⟨[7], fun _ => []⟩ "Notes" (MsgInput.text "hello") "t0" 1).2.1
    (by simp)).2.2.1

/-- C7: two sections created back-to-back by the same owner receive the
strictly increasing, contiguous ids `len+1` and `len+2` (each create
assigns the next sequential 1-based id for that owner, preserving the
density invariant `ids = [1..len]`), and a create for one owner leaves
every other owner's sections unchanged (disjoint per-owner id
spaces). -/
theorem c7_sequential_ids (st : BotState) (o : Nat) (t1 t2 : String)
    (i1 i2 : MsgInput) (n1 n2 : String) :
    getSections (add_section_content o t2 i2 n2
        (add_section_content o t1 i1 n1 st).1).1 o =
      getSections st o ++
        [⟨(getSections st o).length + 1, t1, msgContent i1, n1⟩,
         ⟨(getSections st o).length + 2, t2, msgContent i2, n2⟩] ∧
    ((getSections st o).map SectionRec.id =
        List.range' 1 (getSections st o).length →
      (getSections (add_section_content o t1 i1 n1 st).1 o).map SectionRec.id =
        List.range' 1 ((getSections st o).length + 1)) ∧
    (∀ b, b ≠ o →
      getSections (add_section_content o t1 i1 n1 st).1 b = getSections st b ∧
      getSections (add_section_content o t2 i2 n2
          (add_section_content o t1 i1 n1 st).1).1 b = getSections st b) := by
  have h1 : getSections (add_section_content o t1 i1 n1 st).1 o =
      getSections st o ++ [⟨(getSections st o).length + 1, t1, msgContent i1, n1⟩] := by
    rw [add_section_content_fst, getSections_set_self]
  refine ⟨?_, ?_, ?_⟩
  · rw [add_section_content_fst, getSections_set_self, h1]
    simp
  · intro hdense
    rw [h1, List.map_append, hdense]
    simp [List.range'_concat, Nat.add_comm]
  · intro b hb
    refine ⟨?_, ?_⟩
    · rw [add_section_content_fst, getSections_set_other _ _ _ _ hb]
    · rw [add_section_content_fst, getSections_set_other _ _ _ _ hb,
        add_section_content_fst, getSections_set_other _ _ _ _ hb]

/-- Witness for C7: owner 1 creates two sections back-to-back from the
empty state; they receive ids 1 and 2, and owner 2's (empty) list is
untouched. -/
theorem c7_sequential_ids_witness :
    getSections (add_section_content 1 "b" (MsgInput.text "B") "t2"
        (add_section_content 1 "a" (MsgInput.text "A") "t1"
          (BotState.mk [1] (fun _ => []))).1).1 1 =
      getSections (BotState.mk [1] (fun _ => [])) 1 ++
        [⟨(getSections (BotState.mk [1] (fun _ => [])) 1).length + 1, "a",
          msgContent (MsgInput.text "A"), "t1"⟩,
         ⟨(getSections (BotState.mk [1] (fun _ => [])) 1).length + 2, "b",
          msgContent (MsgInput.text "B"), "t2"⟩] ∧
    getSections (add_section_content 1 "a" (MsgInput.text "A") "t1"
        (BotState.mk [1] (fun _ => []))).1 2 =
      getSections (BotState.mk [1] (fun _ => [])) 2 :=
  ⟨(c7_sequential_ids ⟨[1], fun _ => []⟩ 1 "a" "b"
      (MsgInput.text "A") (MsgInput.text "B") "t1" "t2").1,
   ((c7_sequential_ids ⟨[1], fun _ => []⟩ 1 "a" "b"
      (MsgInput.text "A") (MsgInput.text "B") "t1" "t2").2.2 2 (by decide)).1⟩

/-- C9 counterexample: STEP0 of the addSection flow does not reject an
empty title.  For user 1 with an active session, `add_section_title`
fed the empty string advances the conversation to `ADD_CONTENT` (a
different state, not a re-prompt of `ADD_TITLE`), and the subsequent
commit creates a section whose title is the empty string. -/
theorem c9_empty_title_accepted_cex :
    (add_section_title 1 "" ⟨[1], fun _ => []⟩).1 = some ("", ADD_CONTENT) ∧
    ADD_CONTENT ≠ ADD_TITLE ∧
    getSections (add_section_content 1 "" (MsgInput.text "hello") "t0"
        ⟨[1], fun _ => []⟩).1 1 =
      [⟨1, "", "hello", "t0"⟩] :=
  ⟨by decide, by decide, by decide⟩

/-- C9 amended: STEP0 of addSection performs no validation of the
title.  For a user with an active session, every answer — the empty
string included — is accepted: the trimmed text becomes the scratch
title, the step advances to the content step, and the commit then
creates a section carrying that (possibly empty) title. -/
theorem c9_no_title_validation (uid : Nat) (st : BotState) (text : String)
    (input : MsgInput) (now : String) (h : uid ∈ st.active_sessions) :
    add_section_title uid text st = (some ((pyStrip text), ADD_CONTENT), st) ∧
    getSections (add_section_content uid (pyStrip text) input now st).1 uid =
      getSections st uid ++
        [⟨(getSections st uid).length + 1, (pyStrip text), msgContent input, now⟩] := by
  refine ⟨?_, ?_⟩
  · simp [add_section_title, requires_login_check, h]
  · rw [add_section_content_fst, getSections_set_self]

/-- Witness for the C9 amended theorem at the empty title. -/
theorem c9_no_title_validation_witness :
    add_section_title 1 "" ⟨[1], fun _ => []⟩ =
      (some ((pyStrip ""), ADD_CONTENT), ⟨[1], fun _ => []⟩) :=
  (c9_no_title_validation 1 ⟨[1], fun _ => []⟩ "" (MsgInput.text "x") "t0"
    (by simp)).1

/-- C6: for every conversation flow and step, an invalid answer leaves
the step counter where it is and a valid answer advances it by exactly
one; steps are never skipped or rewound except via explicit cancel.
Concretely: the register flow's STEP0 (`register_username`) re-prompts
at `REG_USERNAME` exactly when the username is already taken and
otherwise advances to `REG_PASSWORD = REG_USERNAME + 1`; the login
flow's STEP0 always advances to `LOGIN_PASSWORD = LOGIN_USERNAME + 1`;
the addSection flow's STEP0 (for a user with an active session) always
advances to `ADD_CONTENT = ADD_TITLE + 1`; every final-step handler
ends the flow with `ConversationHandler.END` (the commit) — including
`login_password`, which returns `END` in all of its branches (bot.py
line 169) — and the explicit cancel handler is the only other exit: no
handler ever returns an earlier or skipped step. -/
theorem c6_step_transitions (text : String) (fs : Fs) (users0 : Users)
    (hfs : fs.usersJson = some (.jsonDoc users0)) :
    ((getUser users0 (pyStrip text)).isSome = true →
      register_username text fs = .ok (none, REG_USERNAME, fs)) ∧
    (getUser users0 (pyStrip text) = none →
      register_username text fs = .ok (some (pyStrip text), REG_PASSWORD, fs)) ∧
    REG_PASSWORD = REG_USERNAME + 1 ∧
    login_username text = ((pyStrip text), LOGIN_PASSWORD) ∧
    LOGIN_PASSWORD = LOGIN_USERNAME + 1 ∧
    (∀ uid st, uid ∈ st.active_sessions →
      add_section_title uid text st = (some ((pyStrip text), ADD_CONTENT), st)) ∧
    ADD_CONTENT = ADD_TITLE + 1 ∧
    (∀ u salt now, register_password u text salt now fs =
      .ok (END, atomic_write_json
        (upsert users0 u (bot_register_record (pyStrip text) salt now)) fs)) ∧
    (∀ u uid sess, ∃ r sess2,
      login_password u text uid sess fs = .ok (r, END, sess2, fs)) ∧
    (∀ uid title input now st,
      (add_section_content uid title input now st).2 = END) ∧
    register_cancel = END := by
  refine ⟨?_, ?_, rfl, rfl, rfl, ?_, rfl, ?_, ?_, fun _ _ _ _ _ => rfl, rfl⟩
  · intro h
    simp [register_username, bot_atomic_read_json, hfs, Except.bind, bind,
      Option.getD, h]
  · intro h
    simp [register_username, bot_atomic_read_json, hfs, Except.bind, bind,
      Option.getD, h]
  · intro uid st h
    simp [add_section_title, requires_login_check, h]
  · intro u salt now
    simp [register_password, bot_atomic_read_json, hfs, Except.bind, bind,
      Option.getD]
  · intro u uid sess
    cases hu : getUser users0 u with
    | none =>
        refine ⟨.notFound, sess, ?_⟩
        simp [login_password, bot_atomic_read_json, hfs, Except.bind, bind,
          Option.getD, hu]
    | some user =>
        cases hcp : checkpw text user.password with
        | true =>
            refine ⟨.success, addSession uid sess, ?_⟩
            simp [login_password, bot_atomic_read_json, hfs, Except.bind, bind,
              Option.getD, hu, hcp]
        | false =>
            refine ⟨.badCredential, sess, ?_⟩
            simp [login_password, bot_atomic_read_json, hfs, Except.bind, bind,
              Option.getD, hu, hcp]

/-- Witness for C6: on the empty credential store, the register flow's
STEP0 fed the fresh username "alice" advances exactly one step to the
password step. -/
theorem c6_step_transitions_witness :
    register_username "alice" ⟨some (.jsonDoc []), none, none⟩ =
      .ok (some (pyStrip "alice"), REG_PASSWORD, ⟨some (.jsonDoc []), none, none⟩) :=
  (c6_step_transitions "alice" ⟨some (.jsonDoc []), none, none⟩ [] rfl).2.1 rfl

/-- C8 counterexample: the record persisted by the bot's register
commit (`bot.py register_password`) does not contain a `settings`
field.  Registering "alice" on the empty store stores a record whose
field set is exactly `password, created_at` — `settings` is absent —
contradicting the claim that every record persisted by registration
contains a `settings` field. -/
theorem c8_bot_register_no_settings_cex :
    register_password "alice" "pw" 7 "t0" ⟨some (.jsonDoc []), none, none⟩ =
      .ok (END, ⟨some (.jsonDoc [("alice", bot_register_record (pyStrip "pw") 7 "t0")]),
        none, none⟩) ∧
    (bot_register_record (pyStrip "pw") 7 "t0").fields = ["password", "created_at"] ∧
    "settings" ∉ (bot_register_record (pyStrip "pw") 7 "t0").fields := by
  refine ⟨rfl, by decide, by decide⟩

/-- C8 amended: the record persisted by `modules/auth.py register_user`
maps the username to an object with exactly the fields `password`,
`created_at` and `settings` (empty mapping), in that order; the record
written by the bot's register commit (`register_password`) instead has
exactly the fields `password` and `created_at`, with no `settings`. -/
theorem c8_register_record_fields (u p : String) (s : Nat) (t : String)
    (fs : Fs) (users0 : Users)
    (hfs : fs.usersJson = some (.jsonDoc users0))
    (habs : getUser users0 u = none) :
    (register_user u p s t fs).2.usersJson =
      some (.jsonDoc (upsert users0 u (auth_register_record p s t))) ∧
    getUser (upsert users0 u (auth_register_record p s t)) u =
      some (auth_register_record p s t) ∧
    (auth_register_record p s t).fields = ["password", "created_at", "settings"] ∧
    (∀ p2 : String, ∀ s2 : Nat, ∀ t2 : String,
      (bot_register_record p2 s2 t2).fields = ["password", "created_at"]) := by
  refine ⟨?_, getUser_upsert_self _ _ _, ?_, ?_⟩
  · simp [register_user, load_users, hfs, habs, save_users_eq]
  · simp [auth_register_record, UserRec.fields]
  · intro p2 s2 t2
    simp [bot_register_record, UserRec.fields]

/-- Witness for the C8 amended theorem at a concrete registration. -/
theorem c8_register_record_fields_witness :
    (auth_register_record "pw" 3 "t1").fields =
      ["password", "created_at", "settings"] :=
  (c8_register_record_fields "alice" "pw" 3 "t1"
    ⟨some (.jsonDoc []), none, none⟩ [] rfl rfl).2.2.1

/-- C4: `register(u, p)` on a store where `u` is absent succeeds and
adds `u`; an immediately following `register(u, p2)` (with `u` now
present, compared by case-sensitive exact string match) fails with
`AlreadyExists` (`register_user` returns `False`), and the file system
— in particular the stored record for `u` — is unchanged by the failed
call. -/
theorem c4_register_twice_already_exists
    (u p p2 : String) (s1 s2 : Nat) (t1 t2 : String) (fs : Fs) (users0 : Users)
    (hfs : fs.usersJson = some (.jsonDoc users0))
    (habs : getUser users0 u = none) :
    register_user u p s1 t1 fs =
      (true, save_users (upsert users0 u (auth_register_record p s1 t1)) fs) ∧
    getUser (upsert users0 u (auth_register_record p s1 t1)) u =
      some (auth_register_record p s1 t1) ∧
    register_user u p2 s2 t2
        (save_users (upsert users0 u (auth_register_record p s1 t1)) fs) =
      (false, save_users (upsert users0 u (auth_register_record p s1 t1)) fs) := by
  refine ⟨?_, getUser_upsert_self users0 u (auth_register_record p s1 t1), ?_⟩
  · simp [register_user, load_users, hfs, habs]
  · simp [register_user, load_users, save_users_eq,
      getUser_upsert_self users0 u (auth_register_record p s1 t1)]

/-- Witness for C4 at a concrete input. -/
theorem c4_register_twice_already_exists_witness :
    register_user "alice" "pw2" 5 "t2"
        (save_users (upsert [] "alice" (auth_register_record "pw1" 3 "t1"))
          ⟨some (.jsonDoc []), none, none⟩) =
      (false, save_users (upsert [] "alice" (auth_register_record "pw1" 3 "t1"))
          ⟨some (.jsonDoc []), none, none⟩) :=
  (c4_register_twice_already_exists "alice" "pw1" "pw2" 3 5 "t1" "t2"
    ⟨some (.jsonDoc []), none, none⟩ [] rfl rfl).2.2

/-- C5: after `register(u, p)` on a store where `u` is absent,
`authenticate(u, p)` succeeds, and authenticating `u` with the
different password `p ++ "x"` fails on the password comparison — the
bot's login classifies it as "Incorrect password" (`badCredential`),
not "User not found" (`notFound`) — rather than succeeding. -/
theorem c5_register_then_authenticate
    (u p : String) (s : Nat) (t : String) (fs : Fs) (users0 : Users)
    (uid : Nat) (sess : List Nat)
    (hfs : fs.usersJson = some (.jsonDoc users0))
    (habs : getUser users0 u = none) :
    (authenticate_user u p (register_user u p s t fs).2).1 = true ∧
    login_password u p uid sess (register_user u p s t fs).2 =
      .ok (.success, END, addSession uid sess, (register_user u p s t fs).2) ∧
    login_password u (p ++ "x") uid sess (register_user u p s t fs).2 =
      .ok (.badCredential, END, sess, (register_user u p s t fs).2) := by
  have hreg : (register_user u p s t fs).2 =
      save_users (upsert users0 u (auth_register_record p s t)) fs := by
    simp [register_user, load_users, hfs, habs]
  have hget := getUser_upsert_self users0 u (auth_register_record p s t)
  refine ⟨?_, ?_, ?_⟩
  · simp only [hreg, save_users_eq, authenticate_user, load_users, hget]
    simp [verify_password, checkpw, auth_register_record, hash_password, hashpw]
  · simp only [hreg, save_users_eq, login_password, bot_atomic_read_json,
      Except.bind, bind, Option.getD, hget]
    simp [checkpw, auth_register_record, hash_password, hashpw]
  · simp only [hreg, save_users_eq, login_password, bot_atomic_read_json,
      Except.bind, bind, Option.getD, hget]
    simp [checkpw, auth_register_record, hash_password, hashpw,
      Ne.symm (append_x_ne p)]

/-- Witness for C5 at a concrete input. -/
theorem c5_register_then_authenticate_witness :
    (authenticate_user "alice" "pw1"
      (register_user "alice" "pw1" 3 "t1" ⟨some (.jsonDoc []), none, none⟩).2).1 = true :=
  (c5_register_then_authenticate "alice" "pw1" 3 "t1"
    ⟨some (.jsonDoc []), none, none⟩ [] 9 [] rfl rfl).1

/-- C10: for a user id already in `active_sessions`, the login flow's
entry handler `login_start` ends the conversation immediately
(`ConversationHandler.END`, so no conversation state is created and the
username/password steps are never reached) and returns the bot state
(active sessions and stored sections) and the file system (the
credential store) unchanged. -/
theorem c10_login_start_already_active
    (userId : Nat) (st : BotState) (fs : Fs)
    (h : userId ∈ st.active_sessions) :
    login_start userId st fs = (END, st, fs) := by
  simp [login_start, h]

/-- C1 counterexample: not every write of the credential store goes
through write-to-temp-then-rename.  `modules/auth.py save_users` opens
`users.json` itself with mode "w": after the `open` (crash point 1 of
its write sequence) the file on disk is truncated — neither the
complete old document (here, the one holding `alice`) nor the complete
new document (the one also holding `bob`), contradicting the claim that
at every intermediate point the file is one of the two. -/
theorem c1_save_users_partial_file_cex :
    (applyOps ⟨some (.jsonDoc [("alice", auth_register_record "pw1" 1 "t1")]), none, none⟩
        ((save_users_ops [("alice", auth_register_record "pw1" 1 "t1"),
          ("bob", auth_register_record "pw2" 2 "t2")]).take 1)).usersJson =
      some FileContent.corruptData ∧
    some FileContent.corruptData ≠
      some (FileContent.jsonDoc [("alice", auth_register_record "pw1" 1 "t1")]) ∧
    some FileContent.corruptData ≠
      some (FileContent.jsonDoc [("alice", auth_register_record "pw1" 1 "t1"),
        ("bob", auth_register_record "pw2" 2 "t2")]) := by
  refine ⟨rfl, by simp, by simp⟩

/-- C1 amended: writes performed through `atomic_write_json` — in
particular the register commit path `register_password`, which persists
the new user this way — serialize the entire credential map and write
it to `users.tmp` before atomically renaming it over `users.json`, so
at every crash point of such a write the credential file is either the
complete old document or the complete new document.  (`save_users` in
modules/auth.py, by contrast, writes `users.json` in place, per the
counterexample.) -/
theorem c1_atomic_write_protocol :
    (∀ (fs : Fs) (old new : Users) (k : Nat),
      fs.usersJson = some (.jsonDoc old) →
      (applyOps fs ((atomic_write_json_ops new).take k)).usersJson = some (.jsonDoc old) ∨
      (applyOps fs ((atomic_write_json_ops new).take k)).usersJson = some (.jsonDoc new)) ∧
    (∀ (u text : String) (salt : Nat) (now : String) (fs : Fs) (users0 : Users),
      fs.usersJson = some (.jsonDoc users0) →
      register_password u text salt now fs =
        .ok (END, atomic_write_json
          (upsert users0 u (bot_register_record (pyStrip text) salt now)) fs) ∧
      (atomic_write_json (upsert users0 u (bot_register_record (pyStrip text) salt now))
          fs).usersJson =
        some (.jsonDoc (upsert users0 u (bot_register_record (pyStrip text) salt now))) ∧
      getUser (upsert users0 u (bot_register_record (pyStrip text) salt now)) u =
        some (bot_register_record (pyStrip text) salt now)) := by
  constructor
  · intro fs old new k hfs
    match k with
    | 0 => left; simpa [applyOps] using hfs
    | 1 => left; simpa [atomic_write_json_ops, applyOps, applyOp, Fs.setPath] using hfs
    | 2 => left; simpa [atomic_write_json_ops, applyOps, applyOp, Fs.setPath] using hfs
    | n + 3 =>
        right
        simp [atomic_write_json_ops, List.take_of_length_le, applyOps, applyOp,
          Fs.setPath, Fs.getPath]
  · intro u text salt now fs users0 hfs
    refine ⟨?_, by rw [atomic_write_json_eq], getUser_upsert_self _ _ _⟩
    simp only [register_password, bot_atomic_read_json, hfs, Except.bind, bind,
      Option.getD]

/-- Witness for the C1 amended theorem at a concrete crash point:
crashing right after the temp file is opened (crash point 1) leaves the
old document in place. -/
theorem c1_atomic_write_protocol_witness :
    (applyOps ⟨some (.jsonDoc []), none, none⟩
        ((atomic_write_json_ops [("alice", bot_register_record "pw" 1 "t")]).take 1)).usersJson =
      some (.jsonDoc []) ∨
    (applyOps ⟨some (.jsonDoc []), none, none⟩
        ((atomic_write_json_ops [("alice", bot_register_record "pw" 1 "t")]).take 1)).usersJson =
      some (.jsonDoc [("alice", bot_register_record "pw" 1 "t")]) :=
  c1_atomic_write_protocol.1 ⟨some (.jsonDoc []), none, none⟩ []
    [("alice", bot_register_record "pw" 1 "t")] 1 rfl

/-- C2 counterexample: the read performed inside
`modules/auth.py authenticate_user` (via `load_users`) on a credential
file whose content fails to deserialize does return the empty store
(the call yields `False`, i.e. not-found, without raising), but it does
NOT rename the bad file aside: afterwards no `.corrupt.bak` artifact
exists and the corrupted `users.json` is still in place, contradicting
the claim that any read renames the bad file and leaves the artifact. -/
theorem c2_load_users_no_corrupt_bak_cex :
    authenticate_user "alice" "pw1" ⟨some FileContent.corruptData, none, none⟩ =
      (false, ⟨some FileContent.corruptData, none, none⟩) ∧
    (authenticate_user "alice" "pw1"
        ⟨some FileContent.corruptData, none, none⟩).2.usersCorruptBak = none := by
  exact ⟨rfl, rfl⟩

/-- C2 amended: on a credential file whose content fails to
deserialize, reads through `atomic_read_json` (modules/utils.py, and
the bot's copy used by the login path) do not raise: they rename the
bad file to the `.corrupt.bak` path and treat the store as empty, so
the bot's authenticate path answers `notFound` for any username and the
`.corrupt.bak` artifact exists afterwards.  `load_users`, the read
inside `modules/auth.py authenticate_user`, also does not raise and
also treats the store as empty (`authenticate_user` returns `False`),
but it performs no rename, so that read path leaves no `.corrupt.bak`
artifact. -/
theorem c2_corrupt_read_fail_safe
    (fs : Fs) (hfs : fs.usersJson = some FileContent.corruptData) :
    atomic_read_json fs =
      .ok ([], { fs with usersJson := none, usersCorruptBak := some FileContent.corruptData }) ∧
    (∀ u p : String, ∀ uid : Nat, ∀ sess : List Nat,
      login_password u p uid sess fs =
        .ok (.notFound, END, sess,
          { fs with usersJson := none, usersCorruptBak := some FileContent.corruptData })) ∧
    ({ fs with usersJson := none, usersCorruptBak := some FileContent.corruptData } : Fs).usersCorruptBak = some FileContent.corruptData ∧
    (∀ u p : String, authenticate_user u p fs = (false, fs)) := by
  refine ⟨?_, ?_, rfl, ?_⟩
  · simp [atomic_read_json, hfs]
  · intro u p uid sess
    simp [login_password, bot_atomic_read_json, hfs, Except.bind, bind,
      Option.getD, getUser]
  · intro u p
    simp [authenticate_user, load_users, hfs, getUser]

/-- Witness for the C2 amended theorem at a concrete corrupted file. -/
theorem c2_corrupt_read_fail_safe_witness :
    atomic_read_json ⟨some FileContent.corruptData, none, none⟩ =
      .ok ([], ⟨none, none, some FileContent.corruptData⟩) :=
  (c2_corrupt_read_fail_safe ⟨some FileContent.corruptData, none, none⟩ rfl).1

/-- Witness for C10 at a concrete input. -/
theorem c10_login_start_already_active_witness :
    login_start 7 ⟨[7], fun _ => []⟩ ⟨some (.jsonDoc []), none, none⟩ =
      (END, ⟨[7], fun _ => []⟩, ⟨some (.jsonDoc []), none, none⟩) :=
  c10_login_start_already_active 7 ⟨[7], fun _ => []⟩
    ⟨some (.jsonDoc []), none, none⟩ (by simp)

end MyLastBot
